import Mathlib

/-!
Verification development for the Mistral OCR ingestion module
(src/api/server/services/Files/MistralOCR/crud.js).

The JavaScript module is shallowly embedded below: JS strings are Lean
Strings, and the JS string operations used by the module (toLowerCase,
trim, startsWith, endsWith and the two anchored regex tests) are given
executable list-based definitions over String.data; the external HTTP
calls and the secret store are passed in as an explicit environment whose
outcomes the pipeline consumes, with a call log recording which stages
were invoked.
-/

namespace MistralOCR

/-- JS String.prototype.toLowerCase, character-wise over the string data. -/
def strToLower (s : String) : String :=
  ⟨s.data.map Char.toLower⟩

/-- JS String.prototype.startsWith. -/
def strStartsWith (s pre : String) : Bool :=
  pre.data.isPrefixOf s.data

/-- JS String.prototype.endsWith. -/
def strEndsWith (s suf : String) : Bool :=
  suf.data.isSuffixOf s.data

/-- JS String.prototype.trim: whitespace stripped from both ends. -/
def strTrim (s : String) : String :=
  ⟨((s.data.dropWhile Char.isWhitespace).reverse.dropWhile Char.isWhitespace).reverse⟩

/-- Emptiness of a string, as the JS truthiness test on a string uses it. -/
def strIsEmpty (s : String) : Bool :=
  s.data.isEmpty

/-- Modelled from the spec: `envVarRegex` from `librechat-data-provider` is
not under src/; per the spec a placeholder-reference is syntactically
distinguishable by a delimiter pattern, here the whole string being
`$\x7bNAME\x7d` with a non-empty NAME. -/
def envVarRegexTest (s : String) : Bool :=
  strStartsWith s ("$\x7b") && strEndsWith s ("\x7d") && decide (4 ≤ s.data.length)

/-- Modelled from the spec: `extractVariableName` from
`librechat-data-provider` is not under src/; it extracts the referenced
variable name from a placeholder, i.e. strips the two leading delimiter
characters and the trailing one. -/
def extractVariableName (s : String) : String :=
  ⟨(s.data.drop 2).dropLast⟩

/-- Modelled from the spec: `extractEnvVariable` from
`librechat-data-provider` is not under src/; a placeholder resolves to the
process-environment value of the referenced name, or stays as written when
that variable is unset. -/
def extractEnvVariable (s : String) (procEnv : String → Option String) : String :=
  if envVarRegexTest s then (procEnv (extractVariableName s)).getD s else s

/-- The `ocr` section of the application config (`req.app.locals.ocr`):
each field may be absent, a literal, or a placeholder string. -/
structure OCRConfig where
  apiKey : Option String
  baseURL : Option String
  mistralModel : Option String
deriving DecidableEq

/-- The one batched secret-store lookup `loadAuthValues` receives: the
field names to resolve and the subset marked optional. -/
structure LookupCall where
  authFields : List String
  optional : List String
deriving DecidableEq

/-- Modelled from the spec: `loadAuthValues` from
`~/server/services/Tools/credentials` is not under src/; per the spec it is
a batched lookup of the named variables against a user-scoped secret store,
where absence of a name in `optional` is not an error and absence of a
required name fails the resolution. -/
def loadAuthValues (store : String → Option String) :
    List String → List String → Except String (List (String × String))
  | [], _ => .ok []
  | f :: rest, optional =>
    match store f, loadAuthValues store rest optional with
    | _, .error e => .error e
    | some v, .ok vals => .ok ((f, v) :: vals)
    | none, .ok vals =>
      if optional.contains f then .ok vals
      else .error ("Missing required auth field: " ++ f)

/-- Reading one resolved variable out of the batched result, as the JS
object indexing `authValues[name]` does (absent keys read as undefined). -/
def authLookup (vals : List (String × String)) (name : String) : Option String :=
  (vals.find? (fun kv => kv.1 == name)).map (fun kv => kv.2)

/-- The credentials the resolution block materializes: either JS variable
may be left undefined when its optional lookup found nothing. -/
structure ResolvedCreds where
  apiKey : Option String
  baseURL : Option String
deriving DecidableEq

/-- What credential resolution produced and whether it performed the
batched secret-store lookup (`none` = zero lookups). -/
structure CredOutcome where
  result : Except String ResolvedCreds
  lookup : Option LookupCall

/-- Embedding of the credential-resolution block of `uploadMistralOCR`
(crud.js lines 134-160). -/
def resolveCredentials (ocrConfig : OCRConfig) (store : String → Option String) : CredOutcome :=
  let apiKeyConfig := ocrConfig.apiKey.getD ("")
  let baseURLConfig := ocrConfig.baseURL.getD ("")
  let isApiKeyEnvVar := envVarRegexTest apiKeyConfig
  let isBaseURLEnvVar := envVarRegexTest baseURLConfig
  let isApiKeyEmpty := strIsEmpty (strTrim apiKeyConfig)
  let isBaseURLEmpty := strIsEmpty (strTrim baseURLConfig)
  if isApiKeyEnvVar || isBaseURLEnvVar || isApiKeyEmpty || isBaseURLEmpty then
    let apiKeyVarName :=
      if isApiKeyEnvVar then extractVariableName apiKeyConfig else "OCR_API_KEY"
    let baseURLVarName :=
      if isBaseURLEnvVar then extractVariableName baseURLConfig else "OCR_BASEURL"
    let call : LookupCall := ⟨[baseURLVarName, apiKeyVarName], [baseURLVarName]⟩
    ⟨(loadAuthValues store call.authFields call.optional).map
        (fun authValues =>
          ⟨authLookup authValues apiKeyVarName, authLookup authValues baseURLVarName⟩),
      some call⟩
  else
    ⟨.ok ⟨some apiKeyConfig, some baseURLConfig⟩, none⟩

/-- The variable name the lookup branch uses for the API key (crud.js line
146). -/
def apiKeyVarNameOf (ocrConfig : OCRConfig) : String :=
  if envVarRegexTest (ocrConfig.apiKey.getD ("")) then
    extractVariableName (ocrConfig.apiKey.getD (""))
  else "OCR_API_KEY"

/-- The variable name the lookup branch uses for the base URL (crud.js line
147). -/
def baseURLVarNameOf (ocrConfig : OCRConfig) : String :=
  if envVarRegexTest (ocrConfig.baseURL.getD ("")) then
    extractVariableName (ocrConfig.baseURL.getD (""))
  else "OCR_BASEURL"

/-- Embedding of the model-name resolution (crud.js lines 169-172). -/
def resolveModel (modelConfig : String) (procEnv : String → Option String) : String :=
  if envVarRegexTest modelConfig then extractEnvVariable modelConfig procEnv
  else if strIsEmpty (strTrim modelConfig) then "mistral-ocr-latest" else strTrim modelConfig

/-- The `document` object of the OCR request body: `documentKey` records
which of the two keys (`document_url` / `image_url`) holds the URL. -/
structure OCRDocumentField where
  type : String
  documentKey : String
  url : String
deriving DecidableEq

/-- The JSON body `performOCR` posts to the `/ocr` endpoint. -/
structure OCRRequestBody where
  model : String
  include_image_base64 : Bool
  document : OCRDocumentField
deriving DecidableEq

/-- Embedding of the request body built by `performOCR` (crud.js lines
83-108), with the source's default arguments. -/
def performOCRBody (url : String) (documentType : String := "document_url")
    (model : String := "mistral-ocr-latest") : OCRRequestBody :=
  let documentKey := if documentType = "image_url" then "image_url" else "document_url"
  { model := model, include_image_base64 := false,
    document := { type := documentType, documentKey := documentKey, url := url } }

/-- The fixed image-extension alternatives of the classification regex
(crud.js line 183): jpe?g contributes jpg and jpeg, tiff? contributes tif
and tiff. -/
def imageExtensions : List String :=
  ["png", "jpg", "jpeg", "gif", "bmp", "webp", "tiff", "tif"]

/-- Embedding of the case-insensitive anchored extension test of the regex
at crud.js line 183: some alternative, preceded by a dot, ends the name. -/
def imageExtMatch (originalname : String) : Bool :=
  imageExtensions.any (fun ext => strEndsWith (strToLower originalname) ("." ++ ext))

/-- Embedding of the media-kind classification (crud.js lines 180-183). -/
def isImageFile (mimetype originalname : String) : Bool :=
  strStartsWith (strToLower mimetype) ("image") || imageExtMatch originalname

/-- Embedding of the document-type selection (crud.js line 184). -/
def classifyDocumentType (mimetype originalname : String) : String :=
  if isImageFile mimetype originalname then "image_url" else "document_url"

/-- One embedded image of an OCR result page; the base64 payload may be
absent. -/
structure PageImage where
  image_base64 : Option String
deriving DecidableEq

/-- One page of an OCR result. -/
structure Page where
  markdown : String
  images : List PageImage
deriving DecidableEq

/-- The page-structured OCR result returned by the provider. -/
structure OCRResult where
  pages : List Page
deriving DecidableEq

/-- The heading the aggregation loop prepends to a page (crud.js lines
197-199): emitted only in the multi-page case, 1-indexed from the 0-based
loop index. -/
def pageHeading (multi : Bool) (index : Nat) : String :=
  if multi then "# PAGE " ++ toString (index + 1) ++ "\n" else ""

/-- Embedding of the `forEach` aggregation loop body (crud.js lines
194-210), as a recursion over the page list carrying the 0-based index:
text accumulates heading, markdown and the blank-line separator; images
accumulate the pages' base64 payloads, entries without one skipped. -/
def reducePages (multi : Bool) : Nat → List Page → String × List String
  | _, [] => ("", [])
  | index, page :: rest =>
    let tail := reducePages multi (index + 1) rest
    (pageHeading multi index ++ page.markdown ++ "\n\n" ++ tail.1,
      page.images.filterMap (fun image => image.image_base64) ++ tail.2)

/-- The aggregation pass over a whole OCR result: the multi-page flag is
the source's `ocrResult.pages.length > 1` test. -/
def aggregatePages (pages : List Page) : String × List String :=
  reducePages (decide (1 < pages.length)) 0 pages

/-- Modelled from the spec: the constant source tag
`FileSources.mistral_ocr` from `librechat-data-provider` is not under
src/; the spec calls it a constant identifying the OCR provider. -/
def mistralOCRSourceTag : String :=
  "mistral_ocr"

/-- The aggregated output `uploadMistralOCR` returns (crud.js lines
212-218). -/
structure AggregatedOutput where
  filename : String
  bytes : Nat
  filepath : String
  text : String
  images : List String
deriving DecidableEq

/-- The fields of the multer file object the routine reads. -/
structure FileDesc where
  path : String
  originalname : String
  mimetype : String
deriving DecidableEq

/-- The provider's file metadata returned by the upload stage. -/
structure MistralFile where
  id : String
deriving DecidableEq

/-- The signed-URL response returned by the signed-URL stage. -/
structure SignedUrlResponse where
  url : String
deriving DecidableEq

/-- Modelled from the spec: the outward-facing error thrown by the top
level catch (crud.js lines 219-222); `logAxiosError` from `~/utils/axios`
is not under src/, and per the spec the outward error carries the fixed
stage-independent message together with the original cause. -/
structure DocumentIngestionError where
  message : String
  cause : String
deriving DecidableEq

/-- The fixed message of the top-level catch (crud.js line 220). -/
def ingestErrorMessage : String :=
  "Error uploading document to Mistral OCR API"

/-- Wrapping of an internal stage error into the single outward error. -/
def wrapIngestError (cause : String) : DocumentIngestionError :=
  ⟨ingestErrorMessage, cause⟩

/-- The external world one ingestion call runs against: the user-scoped
secret store, the process environment, and the outcome each of the three
provider calls would produce if invoked. -/
structure Env where
  store : String → Option String
  procEnv : String → Option String
  uploadOutcome : Except String MistralFile
  signedUrlOutcome : Except String SignedUrlResponse
  ocrOutcome : Except String OCRResult

/-- The observable calls of one ingestion: the secret-store lookup (if
any) and which provider stages were invoked, with the OCR request body
when the OCR stage ran. -/
structure Calls where
  lookup : Option LookupCall
  uploadCalled : Bool
  signedUrlCalled : Bool
  ocrCalled : Bool
  ocrBody : Option OCRRequestBody

/-- Embedding of `uploadMistralOCR` (crud.js lines 129-223): credential
resolution, the three sequential provider stages, aggregation, and the
single top-level catch wrapping any stage error. -/
def uploadMistralOCR (ocrConfig : OCRConfig) (file : FileDesc) (env : Env) :
    Except DocumentIngestionError AggregatedOutput × Calls :=
  let credOut := resolveCredentials ocrConfig env.store
  match credOut.result with
  | .error e => (.error (wrapIngestError e), ⟨credOut.lookup, false, false, false, none⟩)
  | .ok _creds =>
    match env.uploadOutcome with
    | .error e => (.error (wrapIngestError e), ⟨credOut.lookup, true, false, false, none⟩)
    | .ok _mistralFile =>
      let model := resolveModel (ocrConfig.mistralModel.getD ("")) env.procEnv
      match env.signedUrlOutcome with
      | .error e => (.error (wrapIngestError e), ⟨credOut.lookup, true, true, false, none⟩)
      | .ok signedUrlResponse =>
        let documentType := classifyDocumentType file.mimetype file.originalname
        let body := performOCRBody signedUrlResponse.url documentType model
        match env.ocrOutcome with
        | .error e =>
          (.error (wrapIngestError e), ⟨credOut.lookup, true, true, true, some body⟩)
        | .ok ocrResult =>
          let agg := aggregatePages ocrResult.pages
          (.ok ⟨file.originalname, agg.1.length * 4, mistralOCRSourceTag, agg.1, agg.2⟩,
            ⟨credOut.lookup, true, true, true, some body⟩)

/-- The spec's wording of the multi-page aggregated text, stated
independently of the loop: page headings 1-indexed ascending from `n`,
each prefixing that page's markdown, which is followed by the blank-line
separator. -/
def specHeadedText : Nat → List Page → String
  | _, [] => ""
  | n, page :: rest =>
    "# PAGE " ++ toString n ++ "\n" ++ page.markdown ++ "\n\n" ++ specHeadedText (n + 1) rest

/-- The spec's wording of image collection: every page's base64 payloads,
in page order then in-page order, flattened; an entry lacking a payload
contributes nothing. -/
def specCollectedImages (pages : List Page) : List String :=
  pages.flatMap (fun page => page.images.flatMap (fun image => image.image_base64.toList))

/-- A secret store holding no values at all. -/
def emptyStore : String → Option String :=
  fun _ => none

/-- A configuration whose API key and base URL are both non-blank literals. -/
def demoConfig : OCRConfig :=
  ⟨some ("literal-key"), some ("https://ocr.example"), none⟩

/-- A configuration whose API key is a placeholder reference and whose base
URL is absent. -/
def placeholderConfig : OCRConfig :=
  ⟨some ("$\x7bMY_KEY\x7d"), none, none⟩

/-- A PDF upload, as the classification scenario describes it. -/
def demoFile : FileDesc :=
  ⟨"/tmp/a.pdf", "a.pdf", "application/pdf"⟩

/-- The provider file handle used by the successful demo runs. -/
def demoUploadFile : MistralFile :=
  ⟨"file-1"⟩

/-- The signed URL used by the successful demo runs. -/
def demoSignedUrl : SignedUrlResponse :=
  ⟨"https://signed.example/doc"⟩

/-- An environment whose upload stage fails with a transport error. -/
def envUploadFails : Env :=
  ⟨emptyStore, emptyStore, .error ("ECONNRESET"), .ok demoSignedUrl, .ok ⟨[⟨"Hello", []⟩]⟩⟩

/-- An environment whose stages all succeed, the OCR result being the
single page with markdown text Hello and no images. -/
def envHello : Env :=
  ⟨emptyStore, emptyStore, .ok demoUploadFile, .ok demoSignedUrl, .ok ⟨[⟨"Hello", []⟩]⟩⟩

/-- An environment whose stages all succeed with an OCR result of zero
pages. -/
def envEmptyPages : Env :=
  ⟨emptyStore, emptyStore, .ok demoUploadFile, .ok demoSignedUrl, .ok ⟨[]⟩⟩

/-- The aggregated output the single-page Hello scenario must produce. -/
def helloOutput : AggregatedOutput :=
  ⟨"a.pdf", 28, mistralOCRSourceTag, "Hello\n\n", []⟩

/-- Claim C1: if the upload stage throws, `uploadMistralOCR` produces the
single outward-facing ingestion error wrapping that cause, and neither the
signed-URL stage nor the OCR stage is invoked. -/
theorem claim1_upload_error_wraps_and_short_circuits
    (ocrConfig : OCRConfig) (file : FileDesc) (env : Env) (e : String) (creds : ResolvedCreds)
    (hcred : (resolveCredentials ocrConfig env.store).result = .ok creds)
    (hup : env.uploadOutcome = .error e) :
    (uploadMistralOCR ocrConfig file env).1 = .error (wrapIngestError e) ∧
    (uploadMistralOCR ocrConfig file env).2.uploadCalled = true ∧
    (uploadMistralOCR ocrConfig file env).2.signedUrlCalled = false ∧
    (uploadMistralOCR ocrConfig file env).2.ocrCalled = false := by
  simp [uploadMistralOCR, hcred, hup]

/-- Claim C1 witness: a concrete failing upload under a literal
configuration. -/
theorem claim1_witness :
    (uploadMistralOCR demoConfig demoFile envUploadFails).1 =
      .error (wrapIngestError ("ECONNRESET")) ∧
    (uploadMistralOCR demoConfig demoFile envUploadFails).2.uploadCalled = true ∧
    (uploadMistralOCR demoConfig demoFile envUploadFails).2.signedUrlCalled = false ∧
    (uploadMistralOCR demoConfig demoFile envUploadFails).2.ocrCalled = false :=
  claim1_upload_error_wraps_and_short_circuits demoConfig demoFile envUploadFails
    ("ECONNRESET") ⟨some ("literal-key"), some ("https://ocr.example")⟩ rfl rfl

/-- Claim C2: every successful ingestion returns a byte count equal to four
times the character length of the aggregated text, zero included when the
text is empty. -/
theorem claim2_bytes_are_four_times_text_length
    (ocrConfig : OCRConfig) (file : FileDesc) (env : Env) (out : AggregatedOutput)
    (hok : (uploadMistralOCR ocrConfig file env).1 = .ok out) :
    out.bytes = 4 * out.text.length ∧ (out.text = "" → out.bytes = 0) := by
  rcases hcred : (resolveCredentials ocrConfig env.store).result with e | creds <;>
    rcases hup : env.uploadOutcome with e2 | mf <;>
      rcases hsu : env.signedUrlOutcome with e3 | su <;>
        rcases hocr : env.ocrOutcome with e4 | r <;>
          simp [uploadMistralOCR, hcred, hup, hsu, hocr] at hok
  subst hok
  refine ⟨Nat.mul_comm _ 4, fun h => ?_⟩
  have h2 : (aggregatePages r.pages).1 = "" := h
  show (aggregatePages r.pages).1.length * 4 = 0
  rw [h2]
  decide

/-- Claim C2 witness: the single-page Hello scenario, whose aggregated
output is exactly the one the spec names, with 28 = 4 × 7 bytes. -/
theorem claim2_witness :
    (uploadMistralOCR demoConfig demoFile envHello).1 = .ok helloOutput ∧
    helloOutput.bytes = 4 * helloOutput.text.length ∧
    helloOutput.text = "Hello\n\n" ∧ helloOutput.bytes = 28 ∧
    helloOutput.filename = "a.pdf" ∧ helloOutput.images = [] :=
  ⟨rfl,
    (claim2_bytes_are_four_times_text_length demoConfig demoFile envHello helloOutput rfl).1,
    rfl, rfl, rfl, rfl⟩

/-- Claim C10: a successful ingestion over an OCR result with zero pages
returns empty text, no images, zero bytes, the original filename and the
constant source tag. -/
theorem claim10_empty_pages_output
    (ocrConfig : OCRConfig) (file : FileDesc) (env : Env)
    (creds : ResolvedCreds) (mf : MistralFile) (su : SignedUrlResponse)
    (hcred : (resolveCredentials ocrConfig env.store).result = .ok creds)
    (hup : env.uploadOutcome = .ok mf)
    (hsu : env.signedUrlOutcome = .ok su)
    (hocr : env.ocrOutcome = .ok ⟨[]⟩) :
    (uploadMistralOCR ocrConfig file env).1 =
      .ok ⟨file.originalname, 0, mistralOCRSourceTag, "", []⟩ := by
  simp [uploadMistralOCR, hcred, hup, hsu, hocr, aggregatePages, reducePages]

/-- Claim C10 witness: a concrete successful run over an empty page list. -/
theorem claim10_witness :
    (uploadMistralOCR demoConfig demoFile envEmptyPages).1 =
      .ok ⟨"a.pdf", 0, mistralOCRSourceTag, "", []⟩ :=
  claim10_empty_pages_output demoConfig demoFile envEmptyPages
    ⟨some ("literal-key"), some ("https://ocr.example")⟩ demoUploadFile demoSignedUrl
    rfl rfl rfl rfl

/-- In the multi-page mode, the text the loop accumulates from index `i`
onward is the spec's headed text starting at heading number `i + 1`. -/
theorem reducePages_multi_text (pages : List Page) (i : Nat) :
    (reducePages true i pages).1 = specHeadedText (i + 1) pages := by
  induction pages generalizing i with
  | nil => rfl
  | cons page rest ih =>
    simp [reducePages, specHeadedText, pageHeading, ih, String.append_assoc]

/-- Claim C3: for more than one page the aggregated text is exactly the
pages' markdown prefixed by ascending 1-indexed PAGE headings with the
blank-line separators, and for a single page no heading is emitted. -/
theorem claim3_page_headings (pages : List Page) :
    (1 < pages.length → (aggregatePages pages).1 = specHeadedText 1 pages) ∧
    ∀ page, pages = [page] → (aggregatePages pages).1 = page.markdown ++ "\n\n" := by
  constructor
  · intro h
    unfold aggregatePages
    rw [decide_eq_true h]
    exact reducePages_multi_text pages 0
  · rintro page rfl
    simp [aggregatePages, reducePages, pageHeading, String.empty_append, String.append_empty]

/-- Claim C3 witness: the two-page instance, whose aggregated text carries
headings 1 and 2, and the one-page instance, which carries none. -/
theorem claim3_witness :
    (1 < ([⟨"A", []⟩, ⟨"B", []⟩] : List Page).length ∧
      (aggregatePages [⟨"A", []⟩, ⟨"B", []⟩]).1 = specHeadedText 1 [⟨"A", []⟩, ⟨"B", []⟩]) ∧
    (aggregatePages [(⟨"Hello", []⟩ : Page)]).1 = "Hello" ++ "\n\n" :=
  ⟨⟨by decide, (claim3_page_headings [⟨"A", []⟩, ⟨"B", []⟩]).1 (by decide)⟩,
    (claim3_page_headings [⟨"Hello", []⟩]).2 ⟨"Hello", []⟩ rfl⟩

/-- The loop's per-page image filtering equals taking each payload as a
zero-or-one element list and flattening. -/
theorem filterMap_payloads (images : List PageImage) :
    images.filterMap (fun image => image.image_base64) =
      images.flatMap (fun image => image.image_base64.toList) := by
  induction images with
  | nil => rfl
  | cons image rest ih => cases h : image.image_base64 <;> simp [h, ih]

/-- The images the loop accumulates do not depend on the heading mode or
index and are the spec's flat page-ordered collection. -/
theorem reducePages_images (multi : Bool) (i : Nat) (pages : List Page) :
    (reducePages multi i pages).2 = specCollectedImages pages := by
  induction pages generalizing i with
  | nil => rfl
  | cons page rest ih =>
    simp [reducePages, specCollectedImages, filterMap_payloads, ih]

/-- Claim C7: the collected images are exactly the pages' base64 payloads
in page order then in-page order, entries lacking a payload skipped. -/
theorem claim7_images_page_ordered (pages : List Page) :
    (aggregatePages pages).2 = specCollectedImages pages :=
  reducePages_images (decide (1 < pages.length)) 0 pages

/-- Claim C8: a file classifies as an image exactly when its MIME type
starts with image or its lowercased name ends in a dot followed by one of
the eight listed extensions; in particular scan.PNG with an
application/octet-stream MIME type is an image and report.pdf with an
application/pdf MIME type is a document. -/
theorem claim8_media_kind_classification (mimetype originalname : String) :
    (isImageFile mimetype originalname = true ↔
      (strStartsWith (strToLower mimetype) ("image") = true ∨
        ∃ ext ∈ imageExtensions, strEndsWith (strToLower originalname) ("." ++ ext) = true)) ∧
    isImageFile ("application/octet-stream") ("scan.PNG") = true ∧
    classifyDocumentType ("application/octet-stream") ("scan.PNG") = "image_url" ∧
    isImageFile ("application/pdf") ("report.pdf") = false ∧
    classifyDocumentType ("application/pdf") ("report.pdf") = "document_url" := by
  refine ⟨?_, by decide, by decide, by decide, by decide⟩
  simp [isImageFile, imageExtMatch, List.any_eq_true]

/-- Claim C9: the OCR request body fixes include_image_base64 to false,
carries the caller's model and document type, puts the URL under the
image_url key exactly when the document type is image_url and under the
document_url key in every other case, and the document type defaults to
document_url. -/
theorem claim9_ocr_body_shape (url documentType model : String) :
    (performOCRBody url documentType model).model = model ∧
    (performOCRBody url documentType model).include_image_base64 = false ∧
    (performOCRBody url documentType model).document.type = documentType ∧
    (performOCRBody url documentType model).document.url = url ∧
    ((performOCRBody url documentType model).document.documentKey = "image_url" ↔
      documentType = "image_url") ∧
    ((performOCRBody url documentType model).document.documentKey = "image_url" ∨
      (performOCRBody url documentType model).document.documentKey = "document_url") ∧
    performOCRBody url = performOCRBody url ("document_url") ("mistral-ocr-latest") := by
  unfold performOCRBody
  by_cases h : documentType = "image_url" <;> simp [h]

/-- The test the lookup branch of credential resolution is taken on
(crud.js line 145). -/
def lookupBranchTest (ocrConfig : OCRConfig) : Bool :=
  envVarRegexTest (ocrConfig.apiKey.getD ("")) ||
    envVarRegexTest (ocrConfig.baseURL.getD ("")) ||
    strIsEmpty (strTrim (ocrConfig.apiKey.getD (""))) ||
    strIsEmpty (strTrim (ocrConfig.baseURL.getD ("")))

/-- When the lookup branch test holds, resolution performs the one batched
lookup of the base-URL and API-key variable names, the former optional. -/
theorem resolveCredentials_branch (ocrConfig : OCRConfig) (store : String → Option String)
    (hbr : lookupBranchTest ocrConfig = true) :
    resolveCredentials ocrConfig store =
      ⟨(loadAuthValues store [baseURLVarNameOf ocrConfig, apiKeyVarNameOf ocrConfig]
            [baseURLVarNameOf ocrConfig]).map
          (fun authValues =>
            ⟨authLookup authValues (apiKeyVarNameOf ocrConfig),
              authLookup authValues (baseURLVarNameOf ocrConfig)⟩),
        some ⟨[baseURLVarNameOf ocrConfig, apiKeyVarNameOf ocrConfig],
          [baseURLVarNameOf ocrConfig]⟩⟩ := by
  unfold lookupBranchTest at hbr
  simp only [resolveCredentials, apiKeyVarNameOf, baseURLVarNameOf, hbr, if_true]

/-- When the lookup branch test fails, resolution returns the two literals
and performs no lookup. -/
theorem resolveCredentials_no_branch (ocrConfig : OCRConfig) (store : String → Option String)
    (hbr : lookupBranchTest ocrConfig = false) :
    resolveCredentials ocrConfig store =
      ⟨.ok ⟨some (ocrConfig.apiKey.getD ("")), some (ocrConfig.baseURL.getD (""))⟩, none⟩ := by
  unfold lookupBranchTest at hbr
  simp only [resolveCredentials, hbr, Bool.false_eq_true, if_false]

/-- A string whose trim is empty consists of whitespace characters. -/
theorem whitespace_of_trimEmpty (s : String) (h : strIsEmpty (strTrim s) = true) :
    ∀ c ∈ s.data, c.isWhitespace = true := by
  intro c hc
  have hnil : (s.data.dropWhile Char.isWhitespace).reverse.dropWhile Char.isWhitespace = [] := by
    have h2 : (((s.data.dropWhile Char.isWhitespace).reverse.dropWhile
        Char.isWhitespace).reverse).isEmpty = true := h
    simpa using h2
  rw [← List.takeWhile_append_dropWhile Char.isWhitespace s.data] at hc
  rcases List.mem_append.mp hc with h1 | h2
  · exact List.mem_takeWhile_imp h1
  · exact List.dropWhile_eq_nil_iff.mp hnil c (List.mem_reverse.mpr h2)

/-- A string whose trim is empty cannot be a placeholder reference: the
delimiter characters are not whitespace. -/
theorem envVar_not_of_trimEmpty (s : String) (h : strIsEmpty (strTrim s) = true) :
    envVarRegexTest s = false := by
  by_contra hne
  rw [Bool.not_eq_false] at hne
  unfold envVarRegexTest at hne
  have hpre : strStartsWith s ("$\x7b") = true := by
    simp only [Bool.and_eq_true] at hne
    exact hne.1.1
  unfold strStartsWith at hpre
  rcases List.isPrefixOf_iff_prefix.mp hpre with ⟨t, ht⟩
  have hdollar : '$' ∈ s.data := by
    rw [← ht]
    exact List.mem_append.mpr (Or.inl (by decide))
  have := whitespace_of_trimEmpty s h '$' hdollar
  simp at this

/-- Whenever resolution performed a lookup, the call looked up exactly the
base-URL variable name and the API-key variable name, the former marked
optional. -/
theorem resolveCredentials_lookup_spec (ocrConfig : OCRConfig)
    (store : String → Option String) (call : LookupCall)
    (hcall : (resolveCredentials ocrConfig store).lookup = some call) :
    call = ⟨[baseURLVarNameOf ocrConfig, apiKeyVarNameOf ocrConfig],
      [baseURLVarNameOf ocrConfig]⟩ := by
  cases hbr : lookupBranchTest ocrConfig with
  | false => rw [resolveCredentials_no_branch ocrConfig store hbr] at hcall; cases hcall
  | true =>
    rw [resolveCredentials_branch ocrConfig store hbr] at hcall
    exact (Option.some_inj.mp hcall).symm

/-- A required name absent from the store fails the batched lookup. -/
theorem loadAuthValues_missing_required (store : String → Option String) (name : String) :
    ∀ (authFields optional : List String), name ∈ authFields → store name = none →
      name ∉ optional →
      ∃ e, loadAuthValues store authFields optional = .error e := by
  intro authFields
  induction authFields with
  | nil => intro optional hmem; cases hmem
  | cons f rest ih =>
    intro optional hmem hmiss hopt
    rcases List.mem_cons.mp hmem with rfl | hmem2
    · rcases hrec : loadAuthValues store rest optional with e | vals
      · exact ⟨e, by simp [loadAuthValues, hmiss, hrec]⟩
      · exact ⟨"Missing required auth field: " ++ name,
          by simp [loadAuthValues, hmiss, hrec, List.contains, List.elem_eq_mem, hopt]⟩
    · rcases ih optional hmem2 hmiss hopt with ⟨e, he⟩
      exact ⟨e, by cases hsf : store f <;> simp [loadAuthValues, hsf, he]⟩

/-- Claim C4 counterexample: a whitespace-only API key is a non-empty
literal and not a placeholder reference, the base URL is a non-empty
literal too, yet resolution performs a secret-store lookup (and hence does
not use the two literals directly). -/
theorem claim4_counterexample :
    envVarRegexTest (" ") = false ∧ envVarRegexTest ("https://ocr.example") = false ∧
    (" " : String) ≠ "" ∧ ("https://ocr.example" : String) ≠ "" ∧
    (resolveCredentials ⟨some (" "), some ("https://ocr.example"), none⟩ emptyStore).lookup ≠
      none := by decide

/-- Claim C4 as amended: for every configuration where both fields are
literal (not placeholder references) and non-empty after trimming
whitespace, resolution performs zero secret-store lookups and returns the
two literal strings unchanged. -/
theorem claim4_literals_bypass_store
    (ocrConfig : OCRConfig) (store : String → Option String) (a b : String)
    (ha : ocrConfig.apiKey = some a) (hb : ocrConfig.baseURL = some b)
    (hanv : envVarRegexTest a = false) (hbnv : envVarRegexTest b = false)
    (hat : strIsEmpty (strTrim a) = false) (hbt : strIsEmpty (strTrim b) = false) :
    resolveCredentials ocrConfig store = ⟨.ok ⟨some a, some b⟩, none⟩ := by
  have hbr : lookupBranchTest ocrConfig = false := by
    simp [lookupBranchTest, ha, hb, hanv, hbnv, hat, hbt]
  rw [resolveCredentials_no_branch ocrConfig store hbr, ha, hb]
  rfl

/-- Claim C4 witness: the literal demo configuration resolves to its two
literals with no lookup. -/
theorem claim4_witness :
    resolveCredentials demoConfig emptyStore =
      ⟨.ok ⟨some ("literal-key"), some ("https://ocr.example")⟩, none⟩ :=
  claim4_literals_bypass_store demoConfig emptyStore ("literal-key") ("https://ocr.example")
    rfl rfl rfl rfl rfl rfl

/-- Claim C5 counterexample: when both fields are placeholder references
to the same variable FOO, the batched lookup marks FOO optional, so the
API-key variable name is not marked required. -/
theorem claim5_counterexample :
    (resolveCredentials ⟨some ("$\x7bFOO\x7d"), some ("$\x7bFOO\x7d"), none⟩
        emptyStore).lookup = some ⟨["FOO", "FOO"], ["FOO"]⟩ ∧
    apiKeyVarNameOf ⟨some ("$\x7bFOO\x7d"), some ("$\x7bFOO\x7d"), none⟩ = "FOO" ∧
    (⟨["FOO", "FOO"], ["FOO"]⟩ : LookupCall).optional.contains ("FOO") = true := by decide

/-- Claim C5 as amended: whenever the lookup branch is taken, the batched
call consists of the base-URL and API-key variable names, each being the
placeholder-extracted name when its field is a placeholder reference and
the fixed fallback name when its field is empty; the base-URL name is
marked optional, and the API-key name is left out of the optional set
whenever it differs from the base-URL name. -/
theorem claim5_lookup_variable_names
    (ocrConfig : OCRConfig) (store : String → Option String) (call : LookupCall)
    (hcall : (resolveCredentials ocrConfig store).lookup = some call) :
    call.authFields = [baseURLVarNameOf ocrConfig, apiKeyVarNameOf ocrConfig] ∧
    call.optional = [baseURLVarNameOf ocrConfig] ∧
    (envVarRegexTest (ocrConfig.apiKey.getD ("")) = true →
      apiKeyVarNameOf ocrConfig = extractVariableName (ocrConfig.apiKey.getD (""))) ∧
    (strIsEmpty (strTrim (ocrConfig.apiKey.getD (""))) = true →
      apiKeyVarNameOf ocrConfig = "OCR_API_KEY") ∧
    (envVarRegexTest (ocrConfig.baseURL.getD ("")) = true →
      baseURLVarNameOf ocrConfig = extractVariableName (ocrConfig.baseURL.getD (""))) ∧
    (strIsEmpty (strTrim (ocrConfig.baseURL.getD (""))) = true →
      baseURLVarNameOf ocrConfig = "OCR_BASEURL") ∧
    (apiKeyVarNameOf ocrConfig ≠ baseURLVarNameOf ocrConfig →
      call.optional.contains (apiKeyVarNameOf ocrConfig) = false) := by
  have hc := resolveCredentials_lookup_spec ocrConfig store call hcall
  subst hc
  refine ⟨rfl, rfl, ?_, ?_, ?_, ?_, ?_⟩
  · intro h; simp [apiKeyVarNameOf, h]
  · intro h; simp [apiKeyVarNameOf, envVar_not_of_trimEmpty _ h]
  · intro h; simp [baseURLVarNameOf, h]
  · intro h; simp [baseURLVarNameOf, envVar_not_of_trimEmpty _ h]
  · intro h
    simp [List.contains, h]

/-- Claim C5 witness: the placeholder API key with an absent base URL is
looked up under its extracted name MY_KEY, with the fallback base-URL name
marked optional and the API-key name required. -/
theorem claim5_witness :
    (⟨["OCR_BASEURL", "MY_KEY"], ["OCR_BASEURL"]⟩ : LookupCall).authFields =
        [baseURLVarNameOf placeholderConfig, apiKeyVarNameOf placeholderConfig] ∧
    (⟨["OCR_BASEURL", "MY_KEY"], ["OCR_BASEURL"]⟩ : LookupCall).optional =
        [baseURLVarNameOf placeholderConfig] ∧
    (envVarRegexTest (placeholderConfig.apiKey.getD ("")) = true →
      apiKeyVarNameOf placeholderConfig =
        extractVariableName (placeholderConfig.apiKey.getD (""))) ∧
    (strIsEmpty (strTrim (placeholderConfig.apiKey.getD (""))) = true →
      apiKeyVarNameOf placeholderConfig = "OCR_API_KEY") ∧
    (envVarRegexTest (placeholderConfig.baseURL.getD ("")) = true →
      baseURLVarNameOf placeholderConfig =
        extractVariableName (placeholderConfig.baseURL.getD (""))) ∧
    (strIsEmpty (strTrim (placeholderConfig.baseURL.getD (""))) = true →
      baseURLVarNameOf placeholderConfig = "OCR_BASEURL") ∧
    (apiKeyVarNameOf placeholderConfig ≠ baseURLVarNameOf placeholderConfig →
      (⟨["OCR_BASEURL", "MY_KEY"], ["OCR_BASEURL"]⟩ : LookupCall).optional.contains
        (apiKeyVarNameOf placeholderConfig) = false) :=
  claim5_lookup_variable_names placeholderConfig emptyStore
    ⟨["OCR_BASEURL", "MY_KEY"], ["OCR_BASEURL"]⟩ rfl

/-- Claim C6 counterexample: with both fields the placeholder reference to
FOO and a store lacking FOO, resolution succeeds with an undefined API key
instead of failing. -/
theorem claim6_counterexample :
    envVarRegexTest ("$\x7bFOO\x7d") = true ∧
    emptyStore ("FOO") = none ∧
    (resolveCredentials ⟨some ("$\x7bFOO\x7d"), some ("$\x7bFOO\x7d"), none⟩
        emptyStore).result = .ok ⟨none, none⟩ :=
  ⟨rfl, rfl, rfl⟩

/-- Claim C6 as amended: when the API key field is a placeholder
reference, resolution invokes the secret store with the extracted variable
name, and when that name cannot be resolved and differs from the base-URL
variable name the resolution fails. -/
theorem claim6_placeholder_key_required
    (ocrConfig : OCRConfig) (store : String → Option String) (a : String)
    (ha : ocrConfig.apiKey = some a)
    (hpv : envVarRegexTest a = true)
    (hmiss : store (extractVariableName a) = none)
    (hne : extractVariableName a ≠ baseURLVarNameOf ocrConfig) :
    (∃ call, (resolveCredentials ocrConfig store).lookup = some call ∧
      extractVariableName a ∈ call.authFields) ∧
    ∃ e, (resolveCredentials ocrConfig store).result = .error e := by
  have hbr : lookupBranchTest ocrConfig = true := by
    simp [lookupBranchTest, ha, hpv]
  have hak : apiKeyVarNameOf ocrConfig = extractVariableName a := by
    simp [apiKeyVarNameOf, ha, hpv]
  rw [resolveCredentials_branch ocrConfig store hbr]
  constructor
  · exact ⟨⟨[baseURLVarNameOf ocrConfig, apiKeyVarNameOf ocrConfig],
      [baseURLVarNameOf ocrConfig]⟩, rfl, by simp [hak]⟩
  · have hopt : extractVariableName a ∉ ([baseURLVarNameOf ocrConfig] : List String) := by
      simp [hne]
    rcases loadAuthValues_missing_required store (extractVariableName a)
        [baseURLVarNameOf ocrConfig, apiKeyVarNameOf ocrConfig]
        [baseURLVarNameOf ocrConfig] (by simp [hak]) hmiss hopt with ⟨e, he⟩
    exact ⟨e, by simp [he, Except.map]⟩

/-- Claim C6 witness: the placeholder API key over an empty store is
looked up under MY_KEY and the resolution fails. -/
theorem claim6_witness :
    (∃ call, (resolveCredentials placeholderConfig emptyStore).lookup = some call ∧
      extractVariableName ("$\x7bMY_KEY\x7d") ∈ call.authFields) ∧
    ∃ e, (resolveCredentials placeholderConfig emptyStore).result = .error e :=
  claim6_placeholder_key_required placeholderConfig emptyStore ("$\x7bMY_KEY\x7d")
    rfl rfl rfl (by decide)

end MistralOCR
